import Mathlib

/-!
Shallow embedding of the financial scenario engine of `src/types/financial-scenario.ts`
(the PoC repository).  JavaScript numbers are modelled as rationals (`ℚ`); optional
function arguments become `Option` parameters; a `Partial<FinancialInputs>` record
becomes a record of `Option ℚ` fields.  Every definition mirrors the TypeScript
source line by line.
-/

/-- The input record `FinancialInputs` of the source: all slider values. -/
structure FinancialInputs where
  profitraining : ℚ
  ticketPrice : ℚ
  ticketsPerWeek : ℚ
  gastronomyProfitPerTicket : ℚ
  showsPerWeek : ℚ
  gemaFeePerShow : ℚ
  kvrFeePerShow : ℚ
  artistFeePerShow : ℚ
  course1PricePerParticipant : ℚ
  course1Participants : ℚ
  course1PerWeek : ℚ
  course1TrainerCosts : ℚ
  course2PricePerParticipant : ℚ
  course2Participants : ℚ
  course2PerWeek : ℚ
  course2TrainerCosts : ℚ
  course3PricePerParticipant : ℚ
  course3Participants : ℚ
  course3PerWeek : ℚ
  course3TrainerCosts : ℚ
  workshopProfitPerParticipant : ℚ
  workshopParticipants : ℚ
  workshopsPerMonth : ℚ
  rentalsPerWeek : ℚ
  rentalPrice : ℚ
  rent : ℚ
  salaries : ℚ
  marketing : ℚ
  technology : ℚ
  heatingCosts : ℚ
  otherCosts : ℚ
  weeklyReserves : ℚ


/-- The output record `FinancialMetrics` of the source: all computed figures. -/
structure FinancialMetrics where
  baseWeeklyRevenue : ℚ
  baseWeeklyRevenueBrutto : ℚ
  baseWeeklyCosts : ℚ
  totalRevenue : ℚ
  totalRevenueBrutto : ℚ
  totalCosts : ℚ
  totalProfit : ℚ
  totalProfitBrutto : ℚ
  profitMargin : ℚ
  historicalRevenue : ℚ
  historicalCosts : ℚ
  projectedRevenue : ℚ
  projectedCosts : ℚ
  projectedProfit : ℚ
  fixedIncomePerWeek : ℚ
  ticketRevenuePerWeek : ℚ
  gastronomyRevenuePerWeek : ℚ
  course1RevenuePerWeek : ℚ
  course2RevenuePerWeek : ℚ
  course3RevenuePerWeek : ℚ
  workshopRevenuePerWeek : ℚ
  rentalRevenuePerWeek : ℚ
  monthlyCostsPerWeek : ℚ
  showFeesPerWeek : ℚ
  weeklyReserves : ℚ
  totalVAT : ℚ
  weeklyVAT : ℚ
  netRevenue : ℚ
  netProfit : ℚ
  netProfitMargin : ℚ


attribute [ext] FinancialMetrics

/-- The source constant `VAT_RATE = 0.19`. -/
def VAT_RATE : ℚ := 0.19

/-- JavaScript `Array.prototype.slice` index resolution: a negative index counts
from the end (clamped at 0), a non-negative one is clamped at the length. -/
def jsResolveIndex (len : ℕ) (i : ℤ) : ℕ :=
  if i < 0 then ((len : ℤ) + i).toNat else min i.toNat len

/-- JavaScript `l.slice(s, e)`. -/
def jsSlice (l : List ℚ) (s e : ℤ) : List ℚ :=
  (l.take (jsResolveIndex l.length e)).drop (jsResolveIndex l.length s)

/-- JavaScript `l.slice(s)` (one-argument form). -/
def jsSliceFrom (l : List ℚ) (s : ℤ) : List ℚ :=
  l.drop (jsResolveIndex l.length s)

/-- The source's `multipliers.reduce((sum, multiplier) => sum + base * multiplier, 0)`. -/
def weightedTotal (base : ℚ) (multipliers : List ℚ) : ℚ :=
  multipliers.foldl (fun sum multiplier => sum + base * multiplier) 0

/-- The source expression `costMultipliers && costMultipliers.length === 52 ?
costMultipliers : weekMultipliers`. -/
def effectiveCostMultipliersCalc (weekMultipliers costMultipliers : Option (List ℚ)) :
    Option (List ℚ) :=
  match costMultipliers with
  | some cm => if cm.length = 52 then some cm else weekMultipliers
  | none => weekMultipliers

/-- Annual gross revenue: the multiplier-weighted sum when a 52-length array is given,
otherwise the base value times 52 (the `if/else` on `weekMultipliers` in the source). -/
def annualRevenueBruttoCalc (baseWeeklyRevenueBrutto : ℚ) (weekMultipliers : Option (List ℚ)) :
    ℚ :=
  match weekMultipliers with
  | some wm =>
      if wm.length = 52 then weightedTotal baseWeeklyRevenueBrutto wm
      else baseWeeklyRevenueBrutto * 52
  | none => baseWeeklyRevenueBrutto * 52

/-- Cost aggregation inside the 52-length-multiplier branch: use the effective cost
multipliers when they are a 52-length array, else the revenue multipliers. -/
def costTotalFromMultipliers (baseWeeklyCosts : ℚ) (wm : List ℚ)
    (effectiveCostMultipliers : Option (List ℚ)) : ℚ :=
  match effectiveCostMultipliers with
  | some ecm =>
      if ecm.length = 52 then weightedTotal baseWeeklyCosts ecm
      else weightedTotal baseWeeklyCosts wm
  | none => weightedTotal baseWeeklyCosts wm

/-- Annual costs: weighted when a 52-length revenue-multiplier array is given,
otherwise the base value times 52. -/
def annualCostsCalc (baseWeeklyCosts : ℚ) (weekMultipliers effectiveCostMultipliers : Option (List ℚ)) :
    ℚ :=
  match weekMultipliers with
  | some wm =>
      if wm.length = 52 then costTotalFromMultipliers baseWeeklyCosts wm effectiveCostMultipliers
      else baseWeeklyCosts * 52
  | none => baseWeeklyCosts * 52

/-- The historical cost-multiplier slice of the source: slice the effective cost
multipliers when they are a 52-length array, else reuse the historical revenue weeks. -/
def historicalCostMultipliersCalc (effectiveCostMultipliers : Option (List ℚ))
    (historicalWeeks : List ℚ) (cw : ℤ) : List ℚ :=
  match effectiveCostMultipliers with
  | some ecm => if ecm.length = 52 then jsSlice ecm 0 (cw - 1) else historicalWeeks
  | none => historicalWeeks

/-- The projected cost-multiplier slice of the source: slice the effective cost
multipliers when they are a 52-length array, else reuse the projected revenue weeks. -/
def projectedCostMultipliersCalc (effectiveCostMultipliers : Option (List ℚ))
    (projectedWeeks : List ℚ) (cw : ℤ) : List ℚ :=
  match effectiveCostMultipliers with
  | some ecm => if ecm.length = 52 then jsSliceFrom ecm (cw - 1) else projectedWeeks
  | none => projectedWeeks

/-- The historical/projected block of the source, returning
`(historicalRevenue, historicalCosts, projectedRevenue, projectedCosts)`; the split is
only computed when a current week and a 52-length multiplier array are both present. -/
def histProjCalc (baseWeeklyRevenue baseWeeklyCosts totalRevenue totalCosts : ℚ)
    (currentWeek : Option ℤ) (weekMultipliers effectiveCostMultipliers : Option (List ℚ)) :
    ℚ × ℚ × ℚ × ℚ :=
  match currentWeek, weekMultipliers with
  | some cw, some wm =>
      if wm.length = 52 then
        let historicalWeeks := jsSlice wm 0 (cw - 1)
        let projectedWeeks := jsSliceFrom wm (cw - 1)
        (weightedTotal baseWeeklyRevenue historicalWeeks,
         weightedTotal baseWeeklyCosts
           (historicalCostMultipliersCalc effectiveCostMultipliers historicalWeeks cw),
         weightedTotal baseWeeklyRevenue projectedWeeks,
         weightedTotal baseWeeklyCosts
           (projectedCostMultipliersCalc effectiveCostMultipliers projectedWeeks cw))
      else (0, 0, totalRevenue, totalCosts)
  | _, _ => (0, 0, totalRevenue, totalCosts)

/-- Faithful translation of `calculateMetrics(inputs, currentWeek?, weekMultipliers?,
costMultipliers?)` from `financial-scenario.ts`. -/
def calculateMetrics (inputs : FinancialInputs) (currentWeek : Option ℤ)
    (weekMultipliers : Option (List ℚ)) (costMultipliers : Option (List ℚ)) :
    FinancialMetrics :=
  let fixedIncomePerWeek := inputs.profitraining / 4.33
  let ticketRevenuePerWeek := inputs.ticketPrice * inputs.ticketsPerWeek
  let gastronomyRevenuePerWeek := inputs.gastronomyProfitPerTicket * inputs.ticketsPerWeek
  let course1RevenuePerWeek :=
    (inputs.course1PricePerParticipant * inputs.course1Participants - inputs.course1TrainerCosts) *
      inputs.course1PerWeek
  let course2RevenuePerWeek :=
    (inputs.course2PricePerParticipant * inputs.course2Participants - inputs.course2TrainerCosts) *
      inputs.course2PerWeek
  let course3RevenuePerWeek :=
    (inputs.course3PricePerParticipant * inputs.course3Participants - inputs.course3TrainerCosts) *
      inputs.course3PerWeek
  let workshopRevenuePerWeek :=
    inputs.workshopProfitPerParticipant * inputs.workshopParticipants * inputs.workshopsPerMonth / 4.33
  let rentalRevenuePerWeek := inputs.rentalsPerWeek * inputs.rentalPrice
  let baseWeeklyRevenueBrutto :=
    fixedIncomePerWeek + ticketRevenuePerWeek + gastronomyRevenuePerWeek +
      course1RevenuePerWeek + course2RevenuePerWeek + course3RevenuePerWeek +
      workshopRevenuePerWeek + rentalRevenuePerWeek
  let baseWeeklyRevenueBruttoForVAT := baseWeeklyRevenueBrutto - gastronomyRevenuePerWeek
  let baseWeeklyRevenueNetFromBrutto := baseWeeklyRevenueBruttoForVAT / (1 + VAT_RATE)
  let baseWeeklyRevenue := baseWeeklyRevenueNetFromBrutto + gastronomyRevenuePerWeek
  let weeklyVAT := baseWeeklyRevenueBruttoForVAT - baseWeeklyRevenueNetFromBrutto
  let monthlyCostsPerWeek :=
    (inputs.rent + inputs.salaries + inputs.marketing + inputs.technology +
      inputs.heatingCosts + inputs.otherCosts) / 4.33
  let showFeesPerWeek :=
    (inputs.gemaFeePerShow + inputs.kvrFeePerShow + inputs.artistFeePerShow) * inputs.showsPerWeek
  let weeklyReserves := inputs.weeklyReserves
  let baseWeeklyCosts := monthlyCostsPerWeek + weeklyReserves + showFeesPerWeek
  let effectiveCostMultipliers := effectiveCostMultipliersCalc weekMultipliers costMultipliers
  let totalRevenueBrutto := annualRevenueBruttoCalc baseWeeklyRevenueBrutto weekMultipliers
  let totalRevenue := totalRevenueBrutto / (1 + VAT_RATE)
  let totalVAT := totalRevenueBrutto - totalRevenue
  let totalCosts := annualCostsCalc baseWeeklyCosts weekMultipliers effectiveCostMultipliers
  let totalProfit := totalRevenue - totalCosts
  let totalProfitBrutto := totalRevenueBrutto - totalCosts
  let profitMargin := if 0 < totalRevenue then totalProfit / totalRevenue * 100 else 0
  let netProfit := totalProfit
  let netProfitMargin := profitMargin
  let histProj : ℚ × ℚ × ℚ × ℚ :=
    histProjCalc baseWeeklyRevenue baseWeeklyCosts totalRevenue totalCosts currentWeek
      weekMultipliers effectiveCostMultipliers
  let historicalRevenue := histProj.1
  let historicalCosts := histProj.2.1
  let projectedRevenue := histProj.2.2.1
  let projectedCosts := histProj.2.2.2
  let projectedProfit := projectedRevenue - projectedCosts
  { baseWeeklyRevenue := baseWeeklyRevenue
    baseWeeklyRevenueBrutto := baseWeeklyRevenueBrutto
    baseWeeklyCosts := baseWeeklyCosts
    totalRevenue := totalRevenue
    totalRevenueBrutto := totalRevenueBrutto
    totalCosts := totalCosts
    totalProfit := totalProfit
    totalProfitBrutto := totalProfitBrutto
    profitMargin := profitMargin
    historicalRevenue := historicalRevenue
    historicalCosts := historicalCosts
    projectedRevenue := projectedRevenue
    projectedCosts := projectedCosts
    projectedProfit := projectedProfit
    fixedIncomePerWeek := fixedIncomePerWeek
    ticketRevenuePerWeek := ticketRevenuePerWeek
    gastronomyRevenuePerWeek := gastronomyRevenuePerWeek
    course1RevenuePerWeek := course1RevenuePerWeek
    course2RevenuePerWeek := course2RevenuePerWeek
    course3RevenuePerWeek := course3RevenuePerWeek
    workshopRevenuePerWeek := workshopRevenuePerWeek
    rentalRevenuePerWeek := rentalRevenuePerWeek
    monthlyCostsPerWeek := monthlyCostsPerWeek
    showFeesPerWeek := showFeesPerWeek
    weeklyReserves := weeklyReserves
    totalVAT := totalVAT
    weeklyVAT := weeklyVAT
    netRevenue := totalRevenue
    netProfit := netProfit
    netProfitMargin := netProfitMargin }

/-- The source constant `DEFAULT_FINANCIAL_INPUTS`. -/
def DEFAULT_FINANCIAL_INPUTS : FinancialInputs where
  profitraining := 700
  ticketPrice := 15
  ticketsPerWeek := 60
  gastronomyProfitPerTicket := 3
  showsPerWeek := 1
  gemaFeePerShow := 50
  kvrFeePerShow := 50
  artistFeePerShow := 600
  course1PricePerParticipant := 20
  course1Participants := 12
  course1PerWeek := 2
  course1TrainerCosts := 50
  course2PricePerParticipant := 18
  course2Participants := 8
  course2PerWeek := 3
  course2TrainerCosts := 40
  course3PricePerParticipant := 25
  course3Participants := 6
  course3PerWeek := 1
  course3TrainerCosts := 60
  workshopProfitPerParticipant := 20
  workshopParticipants := 15
  workshopsPerMonth := 2
  rentalsPerWeek := 3
  rentalPrice := 250
  rent := 0
  salaries := 12257.05
  marketing := 300
  technology := 200
  heatingCosts := 3500
  otherCosts := 300
  weeklyReserves := 0

/-- A stored scenario's input record: TypeScript's runtime data may miss fields that
were added to the schema later, so every field is optional (this models the
`Partial<FinancialInputs>` shape that `migrateScenario` has to repair). -/
structure FinancialInputsOpt where
  profitraining : Option ℚ
  ticketPrice : Option ℚ
  ticketsPerWeek : Option ℚ
  gastronomyProfitPerTicket : Option ℚ
  showsPerWeek : Option ℚ
  gemaFeePerShow : Option ℚ
  kvrFeePerShow : Option ℚ
  artistFeePerShow : Option ℚ
  course1PricePerParticipant : Option ℚ
  course1Participants : Option ℚ
  course1PerWeek : Option ℚ
  course1TrainerCosts : Option ℚ
  course2PricePerParticipant : Option ℚ
  course2Participants : Option ℚ
  course2PerWeek : Option ℚ
  course2TrainerCosts : Option ℚ
  course3PricePerParticipant : Option ℚ
  course3Participants : Option ℚ
  course3PerWeek : Option ℚ
  course3TrainerCosts : Option ℚ
  workshopProfitPerParticipant : Option ℚ
  workshopParticipants : Option ℚ
  workshopsPerMonth : Option ℚ
  rentalsPerWeek : Option ℚ
  rentalPrice : Option ℚ
  rent : Option ℚ
  salaries : Option ℚ
  marketing : Option ℚ
  technology : Option ℚ
  heatingCosts : Option ℚ
  otherCosts : Option ℚ
  weeklyReserves : Option ℚ

/-- Fallback of a possibly-missing stored field to a default value (the effect the
JavaScript object spread has on one field). -/
def orDefault (o : Option ℚ) (d : ℚ) : ℚ :=
  match o with
  | some v => v
  | none => d

/-- The JavaScript spread `{ ...DEFAULT_FINANCIAL_INPUTS, ...inputs }`: a field
present in `inputs` wins, a missing field falls back to the default. -/
def mergeDefaults (inputs : FinancialInputsOpt) : FinancialInputs where
  profitraining := orDefault inputs.profitraining DEFAULT_FINANCIAL_INPUTS.profitraining
  ticketPrice := orDefault inputs.ticketPrice DEFAULT_FINANCIAL_INPUTS.ticketPrice
  ticketsPerWeek := orDefault inputs.ticketsPerWeek DEFAULT_FINANCIAL_INPUTS.ticketsPerWeek
  gastronomyProfitPerTicket := orDefault inputs.gastronomyProfitPerTicket DEFAULT_FINANCIAL_INPUTS.gastronomyProfitPerTicket
  showsPerWeek := orDefault inputs.showsPerWeek DEFAULT_FINANCIAL_INPUTS.showsPerWeek
  gemaFeePerShow := orDefault inputs.gemaFeePerShow DEFAULT_FINANCIAL_INPUTS.gemaFeePerShow
  kvrFeePerShow := orDefault inputs.kvrFeePerShow DEFAULT_FINANCIAL_INPUTS.kvrFeePerShow
  artistFeePerShow := orDefault inputs.artistFeePerShow DEFAULT_FINANCIAL_INPUTS.artistFeePerShow
  course1PricePerParticipant := orDefault inputs.course1PricePerParticipant DEFAULT_FINANCIAL_INPUTS.course1PricePerParticipant
  course1Participants := orDefault inputs.course1Participants DEFAULT_FINANCIAL_INPUTS.course1Participants
  course1PerWeek := orDefault inputs.course1PerWeek DEFAULT_FINANCIAL_INPUTS.course1PerWeek
  course1TrainerCosts := orDefault inputs.course1TrainerCosts DEFAULT_FINANCIAL_INPUTS.course1TrainerCosts
  course2PricePerParticipant := orDefault inputs.course2PricePerParticipant DEFAULT_FINANCIAL_INPUTS.course2PricePerParticipant
  course2Participants := orDefault inputs.course2Participants DEFAULT_FINANCIAL_INPUTS.course2Participants
  course2PerWeek := orDefault inputs.course2PerWeek DEFAULT_FINANCIAL_INPUTS.course2PerWeek
  course2TrainerCosts := orDefault inputs.course2TrainerCosts DEFAULT_FINANCIAL_INPUTS.course2TrainerCosts
  course3PricePerParticipant := orDefault inputs.course3PricePerParticipant DEFAULT_FINANCIAL_INPUTS.course3PricePerParticipant
  course3Participants := orDefault inputs.course3Participants DEFAULT_FINANCIAL_INPUTS.course3Participants
  course3PerWeek := orDefault inputs.course3PerWeek DEFAULT_FINANCIAL_INPUTS.course3PerWeek
  course3TrainerCosts := orDefault inputs.course3TrainerCosts DEFAULT_FINANCIAL_INPUTS.course3TrainerCosts
  workshopProfitPerParticipant := orDefault inputs.workshopProfitPerParticipant DEFAULT_FINANCIAL_INPUTS.workshopProfitPerParticipant
  workshopParticipants := orDefault inputs.workshopParticipants DEFAULT_FINANCIAL_INPUTS.workshopParticipants
  workshopsPerMonth := orDefault inputs.workshopsPerMonth DEFAULT_FINANCIAL_INPUTS.workshopsPerMonth
  rentalsPerWeek := orDefault inputs.rentalsPerWeek DEFAULT_FINANCIAL_INPUTS.rentalsPerWeek
  rentalPrice := orDefault inputs.rentalPrice DEFAULT_FINANCIAL_INPUTS.rentalPrice
  rent := orDefault inputs.rent DEFAULT_FINANCIAL_INPUTS.rent
  salaries := orDefault inputs.salaries DEFAULT_FINANCIAL_INPUTS.salaries
  marketing := orDefault inputs.marketing DEFAULT_FINANCIAL_INPUTS.marketing
  technology := orDefault inputs.technology DEFAULT_FINANCIAL_INPUTS.technology
  heatingCosts := orDefault inputs.heatingCosts DEFAULT_FINANCIAL_INPUTS.heatingCosts
  otherCosts := orDefault inputs.otherCosts DEFAULT_FINANCIAL_INPUTS.otherCosts
  weeklyReserves := orDefault inputs.weeklyReserves DEFAULT_FINANCIAL_INPUTS.weeklyReserves

/-- View a complete input record as a stored record in which every field is present. -/
def toStored (inputs : FinancialInputs) : FinancialInputsOpt where
  profitraining := some inputs.profitraining
  ticketPrice := some inputs.ticketPrice
  ticketsPerWeek := some inputs.ticketsPerWeek
  gastronomyProfitPerTicket := some inputs.gastronomyProfitPerTicket
  showsPerWeek := some inputs.showsPerWeek
  gemaFeePerShow := some inputs.gemaFeePerShow
  kvrFeePerShow := some inputs.kvrFeePerShow
  artistFeePerShow := some inputs.artistFeePerShow
  course1PricePerParticipant := some inputs.course1PricePerParticipant
  course1Participants := some inputs.course1Participants
  course1PerWeek := some inputs.course1PerWeek
  course1TrainerCosts := some inputs.course1TrainerCosts
  course2PricePerParticipant := some inputs.course2PricePerParticipant
  course2Participants := some inputs.course2Participants
  course2PerWeek := some inputs.course2PerWeek
  course2TrainerCosts := some inputs.course2TrainerCosts
  course3PricePerParticipant := some inputs.course3PricePerParticipant
  course3Participants := some inputs.course3Participants
  course3PerWeek := some inputs.course3PerWeek
  course3TrainerCosts := some inputs.course3TrainerCosts
  workshopProfitPerParticipant := some inputs.workshopProfitPerParticipant
  workshopParticipants := some inputs.workshopParticipants
  workshopsPerMonth := some inputs.workshopsPerMonth
  rentalsPerWeek := some inputs.rentalsPerWeek
  rentalPrice := some inputs.rentalPrice
  rent := some inputs.rent
  salaries := some inputs.salaries
  marketing := some inputs.marketing
  technology := some inputs.technology
  heatingCosts := some inputs.heatingCosts
  otherCosts := some inputs.otherCosts
  weeklyReserves := some inputs.weeklyReserves

/-- The persisted scenario record `FinancialScenario` (its `inputs` kept in the
stored, possibly-incomplete shape). -/
structure FinancialScenario where
  id : String
  name : String
  createdAt : String
  updatedAt : String
  inputs : FinancialInputsOpt
  metrics : FinancialMetrics

/-- The source's `createFinancialScenario(name, inputs?)`; the generated UUID and the
current timestamp are passed in as parameters since they are environment effects. -/
def createFinancialScenario (id now name : String) (inputs : FinancialInputsOpt) :
    FinancialScenario :=
  let scenarioInputs := mergeDefaults inputs
  { id := id
    name := name
    createdAt := now
    updatedAt := now
    inputs := toStored scenarioInputs
    metrics := calculateMetrics scenarioInputs none none none }

/-- The all-zero input record built inside `createEmptyScenario`. -/
def emptyFinancialInputs : FinancialInputs where
  profitraining := 0
  ticketPrice := 0
  ticketsPerWeek := 0
  gastronomyProfitPerTicket := 0
  showsPerWeek := 0
  gemaFeePerShow := 0
  kvrFeePerShow := 0
  artistFeePerShow := 0
  course1PricePerParticipant := 0
  course1Participants := 0
  course1PerWeek := 0
  course1TrainerCosts := 0
  course2PricePerParticipant := 0
  course2Participants := 0
  course2PerWeek := 0
  course2TrainerCosts := 0
  course3PricePerParticipant := 0
  course3Participants := 0
  course3PerWeek := 0
  course3TrainerCosts := 0
  workshopProfitPerParticipant := 0
  workshopParticipants := 0
  workshopsPerMonth := 0
  rentalsPerWeek := 0
  rentalPrice := 0
  rent := 0
  salaries := 0
  marketing := 0
  technology := 0
  heatingCosts := 0
  otherCosts := 0
  weeklyReserves := 0

/-- The source's `createEmptyScenario(name)`: passes the all-zero record (with every
field present) to `createFinancialScenario`. -/
def createEmptyScenario (id now name : String) : FinancialScenario :=
  createFinancialScenario id now name (toStored emptyFinancialInputs)

/-- The source's `migrateScenario(scenario)`: merges the stored inputs with the
defaults and recomputes the metrics; the other fields are kept. -/
def migrateScenario (scenario : FinancialScenario) : FinancialScenario :=
  let migratedInputs := mergeDefaults scenario.inputs
  { scenario with
    inputs := toStored migratedInputs
    metrics := calculateMetrics migratedInputs none none none }

/-! Supporting lemmas about the fold and slice primitives used by the engine. -/

/-- Folding the weighted accumulator over a list adds the weighted sum to the
accumulator. -/
theorem foldl_weighted_eq (b : ℚ) :
    ∀ (l : List ℚ) (acc : ℚ),
      List.foldl (fun sum multiplier => sum + b * multiplier) acc l =
        acc + (l.map (fun m => b * m)).sum := by
  intro l
  induction l with
  | nil => intro acc; simp
  | cons x xs ih =>
      intro acc
      rw [List.foldl_cons, ih, List.map_cons, List.sum_cons]
      ring

/-- The source's reduce expression is the sum of the weighted list. -/
theorem weightedTotal_eq_sum_map (b : ℚ) (l : List ℚ) :
    weightedTotal b l = (l.map (fun m => b * m)).sum := by
  rw [weightedTotal, foldl_weighted_eq, zero_add]

/-- Folding the weighted accumulator over `n` copies of the multiplier `1`. -/
theorem foldl_weighted_replicate_one (b : ℚ) :
    ∀ (n : ℕ) (acc : ℚ),
      List.foldl (fun sum multiplier => sum + b * multiplier) acc (List.replicate n (1 : ℚ)) =
        acc + n * b := by
  intro n
  induction n with
  | zero => intro acc; simp
  | succ k ih =>
      intro acc
      rw [List.replicate_succ, List.foldl_cons, ih]
      push_cast
      ring

/-- The weighted total over an all-ones array of 52 weeks is the base value times 52. -/
theorem weightedTotal_replicate_one (b : ℚ) :
    weightedTotal b (List.replicate 52 (1 : ℚ)) = b * 52 := by
  rw [weightedTotal, foldl_weighted_replicate_one]
  push_cast
  ring

/-- For a non-negative end index, `slice(0, e)` is `take` of the index. -/
theorem jsSlice_zero_nonneg (l : List ℚ) (e : ℤ) (he : 0 ≤ e) :
    jsSlice l 0 e = l.take e.toNat := by
  unfold jsSlice jsResolveIndex
  rw [if_neg (by omega : ¬ e < 0), if_neg (by omega : ¬ (0:ℤ) < 0)]
  simp only [Int.toNat_zero, Nat.zero_min, List.drop_zero]
  rw [List.take_eq_take]
  omega

/-- For a non-negative start index, `slice(s)` is `drop` of the index. -/
theorem jsSliceFrom_nonneg (l : List ℚ) (s : ℤ) (hs : 0 ≤ s) :
    jsSliceFrom l s = l.drop s.toNat := by
  unfold jsSliceFrom jsResolveIndex
  rw [if_neg (by omega : ¬ s < 0)]
  rcases Nat.le_total s.toNat l.length with h | h
  · rw [Nat.min_eq_left h]
  · rw [Nat.min_eq_right h, List.drop_length, List.drop_eq_nil_of_le h]

/-- Merging a complete input record with the defaults changes nothing. -/
theorem mergeDefaults_toStored (x : FinancialInputs) : mergeDefaults (toStored x) = x := rfl

/-! The claims. -/

/-- C1: the historical/projected partition does NOT reconstruct the annual net
revenue total.  At the spec's own concrete scenario (default inputs, a 52-length
multiplier array with 10 weeks at 0 and 42 weeks at 1, current week 27) the code
returns `historicalRevenue + projectedRevenue` exceeding `totalRevenue` by exactly
`20520/17` (about 1207.06): the annual total applies the 1.19 VAT split to the whole
gross aggregate including the gastronomy share, while the weekly net baseline used
for the partition exempts gastronomy from VAT. -/
theorem calculateMetrics_partition_discrepancy_concrete :
    (calculateMetrics DEFAULT_FINANCIAL_INPUTS (some 27)
          (some (List.replicate 10 (0:ℚ) ++ List.replicate 42 1)) none).historicalRevenue +
        (calculateMetrics DEFAULT_FINANCIAL_INPUTS (some 27)
          (some (List.replicate 10 (0:ℚ) ++ List.replicate 42 1)) none).projectedRevenue -
        (calculateMetrics DEFAULT_FINANCIAL_INPUTS (some 27)
          (some (List.replicate 10 (0:ℚ) ++ List.replicate 42 1)) none).totalRevenue =
        20520 / 17 ∧
      (calculateMetrics DEFAULT_FINANCIAL_INPUTS (some 27)
          (some (List.replicate 10 (0:ℚ) ++ List.replicate 42 1)) none).historicalRevenue +
        (calculateMetrics DEFAULT_FINANCIAL_INPUTS (some 27)
          (some (List.replicate 10 (0:ℚ) ++ List.replicate 42 1)) none).projectedRevenue ≠
        (calculateMetrics DEFAULT_FINANCIAL_INPUTS (some 27)
          (some (List.replicate 10 (0:ℚ) ++ List.replicate 42 1)) none).totalRevenue := by
  have h :
      (calculateMetrics DEFAULT_FINANCIAL_INPUTS (some 27)
            (some (List.replicate 10 (0:ℚ) ++ List.replicate 42 1)) none).historicalRevenue +
          (calculateMetrics DEFAULT_FINANCIAL_INPUTS (some 27)
            (some (List.replicate 10 (0:ℚ) ++ List.replicate 42 1)) none).projectedRevenue -
          (calculateMetrics DEFAULT_FINANCIAL_INPUTS (some 27)
            (some (List.replicate 10 (0:ℚ) ++ List.replicate 42 1)) none).totalRevenue =
          20520 / 17 := by
    norm_num [calculateMetrics, annualRevenueBruttoCalc, annualCostsCalc,
      costTotalFromMultipliers, effectiveCostMultipliersCalc, histProjCalc,
      historicalCostMultipliersCalc, projectedCostMultipliersCalc, weightedTotal, jsSlice,
      jsSliceFrom, jsResolveIndex, VAT_RATE, DEFAULT_FINANCIAL_INPUTS, List.replicate,
      List.foldl]
  refine ⟨h, fun heq => ?_⟩
  rw [heq, sub_self] at h
  norm_num at h

/-- C2: adding `d` to `gastronomyProfitPerTicket` with everything else fixed raises
the weekly net revenue by exactly `d * ticketsPerWeek` and leaves the weekly VAT
unchanged (the gastronomy stream is exempt from the 19% VAT extraction). -/
theorem gastronomy_delta_net_revenue_vat (i : FinancialInputs) (d : ℚ) (cw : Option ℤ)
    (wm cm : Option (List ℚ)) :
    (calculateMetrics { i with gastronomyProfitPerTicket := i.gastronomyProfitPerTicket + d }
        cw wm cm).baseWeeklyRevenue =
        (calculateMetrics i cw wm cm).baseWeeklyRevenue + d * i.ticketsPerWeek ∧
      (calculateMetrics { i with gastronomyProfitPerTicket := i.gastronomyProfitPerTicket + d }
        cw wm cm).weeklyVAT = (calculateMetrics i cw wm cm).weeklyVAT := by
  constructor <;> (simp only [calculateMetrics]; ring)

/-- C3: the weekly gross revenue baseline and the weekly cost baseline are exactly the
itemized sums of the spec (negative per-course revenue flows through unclamped), and
at the default inputs they match the hand-computed sums exactly. -/
theorem weekly_baseline_formulas_and_defaults :
    (∀ (i : FinancialInputs) (cw : Option ℤ) (wm cm : Option (List ℚ)),
        (calculateMetrics i cw wm cm).baseWeeklyRevenueBrutto =
            i.profitraining / 4.33 + i.ticketPrice * i.ticketsPerWeek +
              i.gastronomyProfitPerTicket * i.ticketsPerWeek +
              (i.course1PricePerParticipant * i.course1Participants - i.course1TrainerCosts) *
                i.course1PerWeek +
              (i.course2PricePerParticipant * i.course2Participants - i.course2TrainerCosts) *
                i.course2PerWeek +
              (i.course3PricePerParticipant * i.course3Participants - i.course3TrainerCosts) *
                i.course3PerWeek +
              i.workshopProfitPerParticipant * i.workshopParticipants * i.workshopsPerMonth / 4.33 +
              i.rentalsPerWeek * i.rentalPrice ∧
          (calculateMetrics i cw wm cm).baseWeeklyCosts =
            (i.rent + i.salaries + i.marketing + i.technology + i.heatingCosts + i.otherCosts) /
                4.33 +
              i.weeklyReserves +
              (i.gemaFeePerShow + i.kvrFeePerShow + i.artistFeePerShow) * i.showsPerWeek) ∧
      (calculateMetrics DEFAULT_FINANCIAL_INPUTS none none none).baseWeeklyRevenueBrutto =
        700 / 4.33 + 15 * 60 + 3 * 60 + (20 * 12 - 50) * 2 + (18 * 8 - 40) * 3 +
          (25 * 6 - 60) * 1 + 20 * 15 * 2 / 4.33 + 3 * 250 ∧
      (calculateMetrics DEFAULT_FINANCIAL_INPUTS none none none).baseWeeklyCosts =
        (0 + 12257.05 + 300 + 200 + 3500 + 300) / 4.33 + 0 + (50 + 50 + 600) * 1 :=
  ⟨fun i cw wm cm => ⟨rfl, rfl⟩,
   by norm_num [calculateMetrics, DEFAULT_FINANCIAL_INPUTS],
   by norm_num [calculateMetrics, DEFAULT_FINANCIAL_INPUTS]⟩

/-- C4: a revenue-multiplier array whose length is not 52 (the empty array included)
is treated exactly like an absent one: the annual aggregates equal those of the call
without any arrays, namely the unweighted times-52 annualization with the same VAT
split, and the array is never truncated or padded. -/
theorem wrong_length_multipliers_fallback (i : FinancialInputs) (cw : Option ℤ)
    (rm : List ℚ) (cm : Option (List ℚ)) (h : rm.length ≠ 52) :
    (calculateMetrics i cw (some rm) cm).totalRevenueBrutto =
        (calculateMetrics i none none none).totalRevenueBrutto ∧
      (calculateMetrics i cw (some rm) cm).totalRevenue =
        (calculateMetrics i none none none).totalRevenue ∧
      (calculateMetrics i cw (some rm) cm).totalVAT =
        (calculateMetrics i none none none).totalVAT ∧
      (calculateMetrics i cw (some rm) cm).totalCosts =
        (calculateMetrics i none none none).totalCosts ∧
      (calculateMetrics i cw (some rm) cm).totalRevenueBrutto =
        (calculateMetrics i cw (some rm) cm).baseWeeklyRevenueBrutto * 52 ∧
      (calculateMetrics i cw (some rm) cm).totalCosts =
        (calculateMetrics i cw (some rm) cm).baseWeeklyCosts * 52 := by
  refine ⟨?_, ?_, ?_, ?_, ?_, ?_⟩ <;>
    simp [calculateMetrics, annualRevenueBruttoCalc, annualCostsCalc, h]

/-- Witness for C4 at the empty array. -/
theorem wrong_length_multipliers_fallback_witness :
    (([] : List ℚ).length ≠ 52) ∧
      (calculateMetrics DEFAULT_FINANCIAL_INPUTS none (some []) none).totalRevenueBrutto =
        (calculateMetrics DEFAULT_FINANCIAL_INPUTS none none none).totalRevenueBrutto :=
  ⟨by decide,
   (wrong_length_multipliers_fallback DEFAULT_FINANCIAL_INPUTS none [] none (by decide)).1⟩

/-- C5: the profit margin is guarded: it is 0 whenever the annual net revenue is not
positive, and equals `totalProfit / totalRevenue * 100` whenever the net revenue is
positive, for every combination of the optional arguments. -/
theorem profit_margin_zero_guard (i : FinancialInputs) (cw : Option ℤ)
    (wm cm : Option (List ℚ)) :
    ((calculateMetrics i cw wm cm).totalRevenue ≤ 0 →
        (calculateMetrics i cw wm cm).profitMargin = 0) ∧
      (0 < (calculateMetrics i cw wm cm).totalRevenue →
        (calculateMetrics i cw wm cm).profitMargin =
          (calculateMetrics i cw wm cm).totalProfit / (calculateMetrics i cw wm cm).totalRevenue *
            100) := by
  have hrfl : (calculateMetrics i cw wm cm).profitMargin =
      if 0 < (calculateMetrics i cw wm cm).totalRevenue then
        (calculateMetrics i cw wm cm).totalProfit / (calculateMetrics i cw wm cm).totalRevenue * 100
      else 0 := rfl
  constructor
  · intro h
    rw [hrfl, if_neg (not_lt.mpr h)]
  · intro h
    rw [hrfl, if_pos h]

/-- Witness for C5 at the all-zero inputs, whose annual net revenue is 0. -/
theorem profit_margin_zero_guard_witness :
    (calculateMetrics emptyFinancialInputs none none none).totalRevenue ≤ 0 ∧
      (calculateMetrics emptyFinancialInputs none none none).profitMargin = 0 :=
  ⟨by simp [calculateMetrics, annualRevenueBruttoCalc, emptyFinancialInputs, VAT_RATE],
   (profit_margin_zero_guard emptyFinancialInputs none none none).1
     (by simp [calculateMetrics, annualRevenueBruttoCalc, emptyFinancialInputs, VAT_RATE])⟩

/-- C6: calling the engine with no multiplier arrays gives, field for field, the same
metrics record as calling it with no current week and both arrays set to 52 ones. -/
theorem no_multipliers_equiv_all_ones (i : FinancialInputs) :
    calculateMetrics i none none none =
      calculateMetrics i none (some (List.replicate 52 1)) (some (List.replicate 52 1)) := by
  simp only [calculateMetrics, annualRevenueBruttoCalc, annualCostsCalc,
    effectiveCostMultipliersCalc, costTotalFromMultipliers, histProjCalc,
    List.length_replicate, weightedTotal_replicate_one, if_true]

/-- C7: with a current week (at least 1) and a 52-length revenue-multiplier array the
split sums the weeks before the 0-based index `currentWeek - 1` as historical and the
rest as projected; the cost sums use the same slices of the cost multipliers when
those have length 52 and the slices of the revenue multipliers otherwise; the
projected profit is projected revenue minus projected costs; and without a current
week, without a revenue-multiplier array, or with a wrong-length array the
historical figures are 0 and the projected figures are the annual totals. -/
theorem historical_projected_split_spec :
    (∀ (i : FinancialInputs) (cw : ℤ) (wm : List ℚ) (cm : Option (List ℚ)),
        1 ≤ cw → wm.length = 52 →
        (calculateMetrics i (some cw) (some wm) cm).historicalRevenue =
            ((wm.take (cw - 1).toNat).map
              (fun m => (calculateMetrics i (some cw) (some wm) cm).baseWeeklyRevenue * m)).sum ∧
          (calculateMetrics i (some cw) (some wm) cm).projectedRevenue =
            ((wm.drop (cw - 1).toNat).map
              (fun m => (calculateMetrics i (some cw) (some wm) cm).baseWeeklyRevenue * m)).sum ∧
          (calculateMetrics i (some cw) (some wm) cm).projectedProfit =
            (calculateMetrics i (some cw) (some wm) cm).projectedRevenue -
              (calculateMetrics i (some cw) (some wm) cm).projectedCosts) ∧
    (∀ (i : FinancialInputs) (cw : ℤ) (wm c : List ℚ),
        1 ≤ cw → wm.length = 52 → c.length = 52 →
        (calculateMetrics i (some cw) (some wm) (some c)).historicalCosts =
            ((c.take (cw - 1).toNat).map
              (fun m => (calculateMetrics i (some cw) (some wm) (some c)).baseWeeklyCosts * m)).sum ∧
          (calculateMetrics i (some cw) (some wm) (some c)).projectedCosts =
            ((c.drop (cw - 1).toNat).map
              (fun m => (calculateMetrics i (some cw) (some wm) (some c)).baseWeeklyCosts * m)).sum) ∧
    (∀ (i : FinancialInputs) (cw : ℤ) (wm : List ℚ),
        1 ≤ cw → wm.length = 52 →
        (calculateMetrics i (some cw) (some wm) none).historicalCosts =
            ((wm.take (cw - 1).toNat).map
              (fun m => (calculateMetrics i (some cw) (some wm) none).baseWeeklyCosts * m)).sum ∧
          (calculateMetrics i (some cw) (some wm) none).projectedCosts =
            ((wm.drop (cw - 1).toNat).map
              (fun m => (calculateMetrics i (some cw) (some wm) none).baseWeeklyCosts * m)).sum) ∧
    (∀ (i : FinancialInputs) (cw : ℤ) (wm c : List ℚ),
        1 ≤ cw → wm.length = 52 → c.length ≠ 52 →
        (calculateMetrics i (some cw) (some wm) (some c)).historicalCosts =
            ((wm.take (cw - 1).toNat).map
              (fun m => (calculateMetrics i (some cw) (some wm) (some c)).baseWeeklyCosts * m)).sum ∧
          (calculateMetrics i (some cw) (some wm) (some c)).projectedCosts =
            ((wm.drop (cw - 1).toNat).map
              (fun m => (calculateMetrics i (some cw) (some wm) (some c)).baseWeeklyCosts * m)).sum) ∧
    (∀ (i : FinancialInputs) (cw : ℤ) (wm : List ℚ) (cm : Option (List ℚ)), wm.length ≠ 52 →
        (calculateMetrics i (some cw) (some wm) cm).historicalRevenue = 0 ∧
          (calculateMetrics i (some cw) (some wm) cm).historicalCosts = 0 ∧
          (calculateMetrics i (some cw) (some wm) cm).projectedRevenue =
            (calculateMetrics i (some cw) (some wm) cm).totalRevenue ∧
          (calculateMetrics i (some cw) (some wm) cm).projectedCosts =
            (calculateMetrics i (some cw) (some wm) cm).totalCosts) ∧
    (∀ (i : FinancialInputs) (wm cm : Option (List ℚ)),
        (calculateMetrics i none wm cm).historicalRevenue = 0 ∧
          (calculateMetrics i none wm cm).historicalCosts = 0 ∧
          (calculateMetrics i none wm cm).projectedRevenue =
            (calculateMetrics i none wm cm).totalRevenue ∧
          (calculateMetrics i none wm cm).projectedCosts =
            (calculateMetrics i none wm cm).totalCosts) ∧
    (∀ (i : FinancialInputs) (cw : ℤ) (cm : Option (List ℚ)),
        (calculateMetrics i (some cw) none cm).historicalRevenue = 0 ∧
          (calculateMetrics i (some cw) none cm).historicalCosts = 0 ∧
          (calculateMetrics i (some cw) none cm).projectedRevenue =
            (calculateMetrics i (some cw) none cm).totalRevenue ∧
          (calculateMetrics i (some cw) none cm).projectedCosts =
            (calculateMetrics i (some cw) none cm).totalCosts) := by
  refine ⟨fun i cw wm cm hcw hwm => ⟨?_, ?_, rfl⟩,
    fun i cw wm c hcw hwm hc => ⟨?_, ?_⟩,
    fun i cw wm hcw hwm => ⟨?_, ?_⟩,
    fun i cw wm c hcw hwm hc => ⟨?_, ?_⟩,
    fun i cw wm cm hwm => ⟨?_, ?_, ?_, ?_⟩,
    fun i wm cm => ⟨?_, ?_, ?_, ?_⟩,
    fun i cw cm => ⟨?_, ?_, ?_, ?_⟩⟩
  · simp only [calculateMetrics, histProjCalc, hwm, if_true]
    rw [jsSlice_zero_nonneg _ _ (by omega), weightedTotal_eq_sum_map]
  · simp only [calculateMetrics, histProjCalc, hwm, if_true]
    rw [jsSliceFrom_nonneg _ _ (by omega), weightedTotal_eq_sum_map]
  · simp only [calculateMetrics, histProjCalc, effectiveCostMultipliersCalc,
      historicalCostMultipliersCalc, hwm, hc, if_true]
    rw [jsSlice_zero_nonneg _ _ (by omega), weightedTotal_eq_sum_map]
  · simp only [calculateMetrics, histProjCalc, effectiveCostMultipliersCalc,
      projectedCostMultipliersCalc, hwm, hc, if_true]
    rw [jsSliceFrom_nonneg _ _ (by omega), weightedTotal_eq_sum_map]
  · simp only [calculateMetrics, histProjCalc, effectiveCostMultipliersCalc,
      historicalCostMultipliersCalc, hwm, if_true]
    rw [jsSlice_zero_nonneg _ _ (by omega), weightedTotal_eq_sum_map]
  · simp only [calculateMetrics, histProjCalc, effectiveCostMultipliersCalc,
      projectedCostMultipliersCalc, hwm, if_true]
    rw [jsSliceFrom_nonneg _ _ (by omega), weightedTotal_eq_sum_map]
  · simp only [calculateMetrics, histProjCalc, effectiveCostMultipliersCalc,
      historicalCostMultipliersCalc, hwm, hc, if_true, if_false, if_neg hc]
    rw [jsSlice_zero_nonneg _ _ (by omega), weightedTotal_eq_sum_map]
  · simp only [calculateMetrics, histProjCalc, effectiveCostMultipliersCalc,
      projectedCostMultipliersCalc, hwm, hc, if_true, if_false, if_neg hc]
    rw [jsSliceFrom_nonneg _ _ (by omega), weightedTotal_eq_sum_map]
  · simp only [calculateMetrics, histProjCalc, hwm, if_false, if_neg hwm]
  · simp only [calculateMetrics, histProjCalc, hwm, if_false, if_neg hwm]
  · simp only [calculateMetrics, histProjCalc, hwm, if_false, if_neg hwm]
  · simp only [calculateMetrics, histProjCalc, hwm, if_false, if_neg hwm]
  · simp only [calculateMetrics, histProjCalc]
  · simp only [calculateMetrics, histProjCalc]
  · simp only [calculateMetrics, histProjCalc]
  · simp only [calculateMetrics, histProjCalc]
  · simp only [calculateMetrics, histProjCalc]
  · simp only [calculateMetrics, histProjCalc]
  · simp only [calculateMetrics, histProjCalc]
  · simp only [calculateMetrics, histProjCalc]

/-- Witness for C7 at the default inputs, week 27 and an all-ones array. -/
theorem historical_projected_split_spec_witness :
    (1 ≤ (27:ℤ)) ∧ (List.replicate 52 (1:ℚ)).length = 52 ∧
      (calculateMetrics DEFAULT_FINANCIAL_INPUTS (some 27)
          (some (List.replicate 52 1)) none).historicalRevenue =
        (((List.replicate 52 (1:ℚ)).take ((27:ℤ) - 1).toNat).map
          (fun m =>
            (calculateMetrics DEFAULT_FINANCIAL_INPUTS (some 27)
              (some (List.replicate 52 1)) none).baseWeeklyRevenue * m)).sum :=
  ⟨by decide, by simp,
   (historical_projected_split_spec.1 DEFAULT_FINANCIAL_INPUTS 27 (List.replicate 52 1) none
     (by decide) (by simp)).1⟩

/-- C8: migration is idempotent on the inputs, and migrating a scenario whose inputs
already contain every field leaves those inputs unchanged. -/
theorem migrateScenario_idempotent :
    (∀ s : FinancialScenario,
        (migrateScenario (migrateScenario s)).inputs = (migrateScenario s).inputs) ∧
      (∀ (s : FinancialScenario) (x : FinancialInputs), s.inputs = toStored x →
        (migrateScenario s).inputs = s.inputs) := by
  constructor
  · intro s
    rfl
  · intro s x h
    simp [migrateScenario, h, mergeDefaults_toStored]

/-- Witness for C8 at the empty scenario, whose stored inputs are complete. -/
theorem migrateScenario_idempotent_witness :
    (createEmptyScenario "id" "2024-01-01" "empty").inputs = toStored emptyFinancialInputs ∧
      (migrateScenario (createEmptyScenario "id" "2024-01-01" "empty")).inputs =
        (createEmptyScenario "id" "2024-01-01" "empty").inputs :=
  ⟨rfl,
   migrateScenario_idempotent.2 (createEmptyScenario "id" "2024-01-01" "empty")
     emptyFinancialInputs rfl⟩

/-- C9: the empty scenario has every input field present and equal to 0 and every
metrics field exactly 0. -/
theorem createEmptyScenario_all_zero (id now name : String) :
    (createEmptyScenario id now name).inputs =
        ⟨some 0, some 0, some 0, some 0, some 0, some 0, some 0, some 0, some 0, some 0,
         some 0, some 0, some 0, some 0, some 0, some 0, some 0, some 0, some 0, some 0,
         some 0, some 0, some 0, some 0, some 0, some 0, some 0, some 0, some 0, some 0,
         some 0, some 0⟩ ∧
      (createEmptyScenario id now name).metrics =
        ⟨0, 0, 0, 0, 0, 0, 0, 0, 0, 0, 0, 0, 0, 0, 0, 0, 0, 0, 0, 0, 0, 0, 0, 0, 0, 0, 0, 0,
         0, 0⟩ :=
  ⟨rfl,
   by
    ext <;>
      norm_num [createEmptyScenario, createFinancialScenario, mergeDefaults_toStored,
        emptyFinancialInputs, calculateMetrics, annualRevenueBruttoCalc, annualCostsCalc,
        effectiveCostMultipliersCalc, histProjCalc, weightedTotal, VAT_RATE]⟩

/-- C10: when the revenue-multiplier array is absent or not of length 52 the cost
multipliers are ignored entirely (the whole metrics record is the same as with no
cost multipliers) and the annual costs are the unweighted times-52 annualization. -/
theorem costMultipliers_ignored_without_valid_revenue_multipliers :
    (∀ (i : FinancialInputs) (cw : Option ℤ) (cm : Option (List ℚ)),
        calculateMetrics i cw none cm = calculateMetrics i cw none none ∧
          (calculateMetrics i cw none cm).totalCosts =
            (calculateMetrics i cw none cm).baseWeeklyCosts * 52) ∧
      (∀ (i : FinancialInputs) (cw : Option ℤ) (l : List ℚ) (cm : Option (List ℚ)),
        l.length ≠ 52 →
        calculateMetrics i cw (some l) cm = calculateMetrics i cw (some l) none ∧
          (calculateMetrics i cw (some l) cm).totalCosts =
            (calculateMetrics i cw (some l) cm).baseWeeklyCosts * 52) := by
  constructor
  · intro i cw cm
    constructor
    · rcases cw with _ | c <;>
        simp [calculateMetrics, annualRevenueBruttoCalc, annualCostsCalc, histProjCalc,
          effectiveCostMultipliersCalc]
    · simp [calculateMetrics, annualCostsCalc]
  · intro i cw l cm h
    constructor
    · rcases cw with _ | c <;>
        simp [calculateMetrics, annualRevenueBruttoCalc, annualCostsCalc, histProjCalc,
          effectiveCostMultipliersCalc, h]
    · simp [calculateMetrics, annualCostsCalc, h]

/-- Witness for C10 at the empty revenue array and a valid 52-length cost array. -/
theorem costMultipliers_ignored_witness :
    (([] : List ℚ).length ≠ 52) ∧
      calculateMetrics DEFAULT_FINANCIAL_INPUTS none (some [])
          (some (List.replicate 52 (2:ℚ))) =
        calculateMetrics DEFAULT_FINANCIAL_INPUTS none (some []) none :=
  ⟨by decide,
   (costMultipliers_ignored_without_valid_revenue_multipliers.2 DEFAULT_FINANCIAL_INPUTS none
     [] (some (List.replicate 52 2)) (by decide)).1⟩
